import Mathlib

/-
Shallow embedding of the ipynbsrv/coco contract package
(src/ipynbsrv/contract/{backends,dtos,errors,services}.py and
src/coco/contract/services.py).

The package is almost entirely abstract interface declarations; the
executable parts embedded here are:
  - the DTO classes in dtos.py (field initialisation, is_valid, validate),
  - StorageBackend's constructor in backends.py (base-directory check),
  - ContainerBackend.restart_container's default body (stop then start),
  - UserBackend.get_user / user_exists (abstract stubs in this revision),
  - the declared exception-class hierarchy of errors.py, dtos.py and
    services.py,
  - a per-method table classifying every method body in the repository.

Python values reaching the embedded code are modelled by the inductive
PyVal below; Python exceptions by PyExc; raising methods return
Except PyExc. Methods are modelled in a state-passing style (the method
returns the possibly-updated receiver next to its result) so that
frame properties of the source can be stated and checked.
-/

/-- Universe of Python values that can appear in the DTO fields the
contract package reads: None, booleans, integers, strings, and
ContainerImageDTO instances (the one object type the DTO code inspects
via isinstance). A ContainerImageDTO instance carries its two attributes
set by its constructor. -/
inductive PyVal where
  | pynone
  | pybool (b : Bool)
  | pyint (n : Int)
  | pystr (s : String)
  | pyimage (name tag : PyVal)
  deriving DecidableEq

/-- Python truthiness for the PyVal universe: None is falsy, False is
falsy, 0 is falsy, the empty string is falsy; every object instance
(such as a ContainerImageDTO, which defines neither a bool nor a len
method) is truthy. -/
def truthy : PyVal → Bool
  | PyVal.pynone => false
  | PyVal.pybool b => b
  | PyVal.pyint n => decide (n ≠ 0)
  | PyVal.pystr s => decide (s ≠ "")
  | PyVal.pyimage _ _ => true

/-- Exceptions the embedded code can raise. missingFieldError is the
dtos.py MissingFieldError (a subclass of ValidationError);
validationError is a plain ValidationError; directoryNotFoundError and
userNotFoundError come from errors.py; notImplementedError is the
builtin raised by abstract stubs; attributeError models calling a
missing method on a value. -/
inductive PyExc where
  | notImplementedError
  | attributeError
  | validationError (message : String)
  | missingFieldError (message : String)
  | directoryNotFoundError (message : String)
  | userNotFoundError (user : PyVal)
  deriving DecidableEq

/-- Decidable equality for Except results, so that concrete runs of the
embedded methods can be checked by evaluation. -/
instance {ε α : Type} [DecidableEq ε] [DecidableEq α] : DecidableEq (Except ε α) := fun a b =>
  match a, b with
  | Except.error e, Except.error f =>
    match decEq e f with
    | isTrue h => isTrue (congrArg Except.error h)
    | isFalse h => isFalse (fun c => h (Except.error.inj c))
  | Except.error _, Except.ok _ => isFalse (fun c => Except.noConfusion c)
  | Except.ok _, Except.error _ => isFalse (fun c => Except.noConfusion c)
  | Except.ok x, Except.ok y =>
    match decEq x y with
    | isTrue h => isTrue (congrArg Except.ok h)
    | isFalse h => isFalse (fun c => h (Except.ok.inj c))

/-- The ContainerImageDTO class of dtos.py: its constructor stores the
name and tag entries of the input dictionary. -/
structure ContainerImageDTO where
  name : PyVal
  tag : PyVal
  deriving DecidableEq

/-- ContainerImageDTO.__init__: reads name and tag from the values
dictionary (dict.get returns None for an absent key, so the dictionary
is modelled as a total function into PyVal). -/
def ContainerImageDTO.init (values : String → PyVal) : ContainerImageDTO :=
  { name := values "name", tag := values "tag" }

/-- Statement-level translation of ContainerImageDTO.is_valid: the body
is a single return of a boolean expression over the attributes and
contains no attribute assignment, so the receiver comes back unchanged
next to the result. -/
def ContainerImageDTO.is_validS (self : ContainerImageDTO) : ContainerImageDTO × Bool :=
  (self, decide (self.name ≠ PyVal.pynone) && decide (self.tag ≠ PyVal.pynone))

/-- Statement-level translation of ContainerImageDTO.validate: raise
MissingFieldError when name is falsy, then when tag is falsy; no
statement assigns an attribute. -/
def ContainerImageDTO.validateS (self : ContainerImageDTO) : ContainerImageDTO × Except PyExc Unit :=
  if truthy self.name = false then
    (self, Except.error (PyExc.missingFieldError "Container image name not set"))
  else if truthy self.tag = false then
    (self, Except.error (PyExc.missingFieldError "Container image tag name not set"))
  else
    (self, Except.ok ())

/-- Result of ContainerImageDTO.is_valid. -/
def ContainerImageDTO.is_valid (self : ContainerImageDTO) : Bool :=
  (ContainerImageDTO.is_validS self).2

/-- Result of ContainerImageDTO.validate. -/
def ContainerImageDTO.validate (self : ContainerImageDTO) : Except PyExc Unit :=
  (ContainerImageDTO.validateS self).2

/-- The ContainerDTO class of dtos.py: stores the id entry of the input
dictionary. -/
structure ContainerDTO where
  id : PyVal
  deriving DecidableEq

/-- ContainerDTO.__init__. -/
def ContainerDTO.init (values : String → PyVal) : ContainerDTO :=
  { id := values "id" }

/-- Statement-level translation of ContainerDTO.is_valid. -/
def ContainerDTO.is_validS (self : ContainerDTO) : ContainerDTO × Bool :=
  (self, decide (self.id ≠ PyVal.pynone))

/-- Statement-level translation of ContainerDTO.validate. -/
def ContainerDTO.validateS (self : ContainerDTO) : ContainerDTO × Except PyExc Unit :=
  if truthy self.id = false then
    (self, Except.error (PyExc.missingFieldError "Container ID not set"))
  else
    (self, Except.ok ())

/-- Result of ContainerDTO.is_valid. -/
def ContainerDTO.is_valid (self : ContainerDTO) : Bool :=
  (ContainerDTO.is_validS self).2

/-- Result of ContainerDTO.validate. -/
def ContainerDTO.validate (self : ContainerDTO) : Except PyExc Unit :=
  (ContainerDTO.validateS self).2

/-- The Python isinstance check against the ContainerImageDTO class over
the PyVal universe. -/
def isinstance_ContainerImageDTO : PyVal → Bool
  | PyVal.pyimage _ _ => true
  | _ => false

/-- Evaluation of the method call value.is_valid() appearing inside
CreatableContainerDTO.is_valid: on a ContainerImageDTO instance it runs
that instance's is_valid (threading the instance's state); on any other
value in the universe the attribute does not exist. Short-circuiting of
the Python "and" guarantees the call only happens after the isinstance
check, so the default branch is unreachable from the translated body. -/
def image_is_validS : PyVal → PyVal × Bool
  | PyVal.pyimage n t =>
    let r := ContainerImageDTO.is_validS { name := n, tag := t }
    (PyVal.pyimage r.1.name r.1.tag, r.2)
  | v => (v, false)

/-- Evaluation of the method call value.validate() appearing inside
CreatableContainerDTO.validate, guarded in the source by an isinstance
check; a non-ContainerImageDTO receiver would raise AttributeError. -/
def image_validateS : PyVal → PyVal × Except PyExc Unit
  | PyVal.pyimage n t =>
    let r := ContainerImageDTO.validateS { name := n, tag := t }
    (PyVal.pyimage r.1.name r.1.tag, r.2)
  | v => (v, Except.error PyExc.attributeError)

/-- The CreatableContainerDTO class of dtos.py: its constructor stores
the command, env, image, name, ports and volumes entries of the input
dictionary. -/
structure CreatableContainerDTO where
  command : PyVal
  env : PyVal
  image : PyVal
  name : PyVal
  ports : PyVal
  volumes : PyVal
  deriving DecidableEq

/-- CreatableContainerDTO.__init__. -/
def CreatableContainerDTO.init (values : String → PyVal) : CreatableContainerDTO :=
  { command := values "command", env := values "env", image := values "image",
    name := values "name", ports := values "ports", volumes := values "volumes" }

/-- Statement-level translation of CreatableContainerDTO.is_valid: a
single return of the conjunction (command is not None) and (image is not
None) and isinstance(image, ContainerImageDTO) and image.is_valid() and
(name is not None); the nested method call threads the image attribute's
state. -/
def CreatableContainerDTO.is_validS (self : CreatableContainerDTO) : CreatableContainerDTO × Bool :=
  ({ self with image := (image_is_validS self.image).1 },
    decide (self.command ≠ PyVal.pynone) && decide (self.image ≠ PyVal.pynone)
      && isinstance_ContainerImageDTO self.image && (image_is_validS self.image).2
      && decide (self.name ≠ PyVal.pynone))

/-- Statement-level translation of CreatableContainerDTO.validate: raise
MissingFieldError when image is falsy; raise ValidationError when image
is not a ContainerImageDTO; run image.validate(), propagating its
exception; then raise MissingFieldError when name is falsy. -/
def CreatableContainerDTO.validateS (self : CreatableContainerDTO) : CreatableContainerDTO × Except PyExc Unit :=
  if truthy self.image = false then
    (self, Except.error (PyExc.missingFieldError "Container image not set"))
  else if isinstance_ContainerImageDTO self.image = false then
    (self, Except.error (PyExc.validationError "Container image not valid"))
  else
    let img := (image_validateS self.image).1
    match (image_validateS self.image).2 with
    | Except.error e => ({ self with image := img }, Except.error e)
    | Except.ok _ =>
      if truthy self.name = false then
        ({ self with image := img }, Except.error (PyExc.missingFieldError "Container name not set"))
      else
        ({ self with image := img }, Except.ok ())

/-- Result of CreatableContainerDTO.is_valid. -/
def CreatableContainerDTO.is_valid (self : CreatableContainerDTO) : Bool :=
  (CreatableContainerDTO.is_validS self).2

/-- Result of CreatableContainerDTO.validate. -/
def CreatableContainerDTO.validate (self : CreatableContainerDTO) : Except PyExc Unit :=
  (CreatableContainerDTO.validateS self).2

/-- The StorageBackend class of backends.py holds the base directory its
constructor received. -/
structure StorageBackend where
  base_dir : String
  deriving DecidableEq

/-- StorageBackend.__init__: raise DirectoryNotFoundError when
os.path.exists(base_dir) is false, else store base_dir on the instance.
The filesystem probe os.path.exists is an effect outside the repository
and is passed in as a function from paths to booleans. -/
def StorageBackend.init (os_path_exists : String → Bool) (base_dir : String) :
    Except PyExc StorageBackend :=
  if os_path_exists base_dir = false then
    Except.error (PyExc.directoryNotFoundError "Base directory does not exist.")
  else
    Except.ok { base_dir := base_dir }

/-- The calls the default ContainerBackend.restart_container body makes
on its receiver, in order. -/
inductive ContainerCall where
  | stop (container : PyVal)
  | start (container : PyVal)
  deriving DecidableEq

/-- The default body of ContainerBackend.restart_container: the
statement self.stop_container(container) followed by the statement
self.start_container(container), with Python exception propagation (an
exception in the first call skips the second). The receiver's
stop_container and start_container methods are parameters, since a
concrete backend supplies them; the returned list is the sequence of
method calls the body performed. -/
def ContainerBackend.restart_container
    (stop_container start_container : PyVal → Except PyExc Unit) (container : PyVal) :
    List ContainerCall × Except PyExc Unit :=
  match stop_container container with
  | Except.error e => ([ContainerCall.stop container], Except.error e)
  | Except.ok _ =>
    match start_container container with
    | Except.error e =>
      ([ContainerCall.stop container, ContainerCall.start container], Except.error e)
    | Except.ok _ =>
      ([ContainerCall.stop container, ContainerCall.start container], Except.ok ())

/-- UserBackend.get_user as defined in this revision of backends.py: an
abstract stub whose body is raise NotImplementedError. -/
def UserBackend.get_user (user : PyVal) : Except PyExc PyVal :=
  Except.error PyExc.notImplementedError

/-- UserBackend.user_exists as defined in this revision of backends.py:
an abstract stub whose body is raise NotImplementedError (it is not
implemented in terms of get_user in this revision). -/
def UserBackend.user_exists (user : PyVal) : Except PyExc Bool :=
  Except.error PyExc.notImplementedError

/-- The classes of the declared exception hierarchy: the Python builtins
object and Exception, the classes of errors.py and dtos.py, and the four
exception classes that src/ipynbsrv/contract/services.py declares again
in its own module (kept apart with a services suffix, since they are
distinct Python classes with the same names). -/
inductive PyClass where
  | PyObject
  | PyException
  | BackendError
  | ConnectionError
  | NotFoundError
  | ContainerBackendError
  | ContainerNotFoundError
  | IllegalContainerSpecificationError
  | IllegalContainerStateError
  | ContainerImageNotFoundError
  | ContainerSnapshotNotFoundError
  | GroupBackendError
  | GroupNotFoundError
  | StorageBackendError
  | DirectoryNotFoundError
  | UserBackendError
  | ReadOnlyError
  | UserNotFoundError
  | ServiceError
  | EncryptionServiceError
  | IntegrityServiceError
  | IntegrityValidationError
  | ValidationError
  | MissingFieldError
  | ServiceError_services
  | EncryptionServiceError_services
  | IntegrityServiceError_services
  | IntegrityValidationError_services
  deriving DecidableEq

/-- Declared base classes of each class, read off the class statements
of errors.py, dtos.py and services.py (in source order of the base
list). -/
def parents : PyClass → List PyClass
  | PyClass.PyObject => []
  | PyClass.PyException => [PyClass.PyObject]
  | PyClass.BackendError => [PyClass.PyException]
  | PyClass.ConnectionError => [PyClass.BackendError]
  | PyClass.NotFoundError => [PyClass.BackendError]
  | PyClass.ContainerBackendError => [PyClass.BackendError]
  | PyClass.ContainerNotFoundError => [PyClass.NotFoundError, PyClass.ContainerBackendError]
  | PyClass.IllegalContainerSpecificationError => [PyClass.ContainerBackendError]
  | PyClass.IllegalContainerStateError => [PyClass.ContainerBackendError]
  | PyClass.ContainerImageNotFoundError => [PyClass.NotFoundError, PyClass.ContainerBackendError]
  | PyClass.ContainerSnapshotNotFoundError => [PyClass.ContainerBackendError]
  | PyClass.GroupBackendError => [PyClass.BackendError]
  | PyClass.GroupNotFoundError => [PyClass.NotFoundError, PyClass.GroupBackendError]
  | PyClass.StorageBackendError => [PyClass.BackendError]
  | PyClass.DirectoryNotFoundError => [PyClass.NotFoundError, PyClass.StorageBackendError]
  | PyClass.UserBackendError => [PyClass.BackendError]
  | PyClass.ReadOnlyError => [PyClass.UserBackendError]
  | PyClass.UserNotFoundError => [PyClass.NotFoundError, PyClass.UserBackendError]
  | PyClass.ServiceError => [PyClass.PyException]
  | PyClass.EncryptionServiceError => [PyClass.ServiceError]
  | PyClass.IntegrityServiceError => [PyClass.ServiceError]
  | PyClass.IntegrityValidationError => [PyClass.IntegrityServiceError]
  | PyClass.ValidationError => [PyClass.PyException]
  | PyClass.MissingFieldError => [PyClass.ValidationError]
  | PyClass.ServiceError_services => [PyClass.PyException]
  | PyClass.EncryptionServiceError_services => [PyClass.ServiceError_services]
  | PyClass.IntegrityServiceError_services => [PyClass.ServiceError_services]
  | PyClass.IntegrityValidationError_services => [PyClass.IntegrityServiceError_services]

/-- A class together with all its ancestors, collected by walking the
declared base lists; the fuel bounds the walk depth and 8 exceeds the
depth of the deepest declared chain. -/
def ancestors : Nat → PyClass → List PyClass
  | 0, c => [c]
  | n + 1, c => c :: (parents c).flatMap (ancestors n)

/-- Python issubclass over the declared hierarchy (reflexive and
transitive). -/
def issubclass (c d : PyClass) : Bool :=
  decide (d ∈ ancestors 8 c)

/-- An exception instance: its class and its constructor arguments. -/
structure PyExcInstance where
  cls : PyClass
  args : List PyVal
  deriving DecidableEq

/-- Python isinstance for exception instances. -/
def isinstance (e : PyExcInstance) (c : PyClass) : Bool :=
  issubclass e.cls c

/-- Both errors.py and src/ipynbsrv/contract/services.py declare a root
class named ServiceError extending Exception; a class counts as rooted
in ServiceError when it descends from either of them. -/
def subclassOfServiceError (c : PyClass) : Bool :=
  issubclass c PyClass.ServiceError || issubclass c PyClass.ServiceError_services

/-- Every exception class defined in the repository: the twenty classes
of errors.py, the two of dtos.py, and the four of
src/ipynbsrv/contract/services.py. -/
def repoErrorClasses : List PyClass :=
  [PyClass.BackendError, PyClass.ConnectionError, PyClass.NotFoundError,
   PyClass.ContainerBackendError, PyClass.ContainerNotFoundError,
   PyClass.IllegalContainerSpecificationError, PyClass.IllegalContainerStateError,
   PyClass.ContainerImageNotFoundError, PyClass.ContainerSnapshotNotFoundError,
   PyClass.GroupBackendError, PyClass.GroupNotFoundError,
   PyClass.StorageBackendError, PyClass.DirectoryNotFoundError,
   PyClass.UserBackendError, PyClass.ReadOnlyError, PyClass.UserNotFoundError,
   PyClass.ServiceError, PyClass.EncryptionServiceError,
   PyClass.IntegrityServiceError, PyClass.IntegrityValidationError,
   PyClass.ValidationError, PyClass.MissingFieldError,
   PyClass.ServiceError_services, PyClass.EncryptionServiceError_services,
   PyClass.IntegrityServiceError_services, PyClass.IntegrityValidationError_services]

/-- Syntactic classification of a Python method body in this
repository: a body that is exactly the statement raise
NotImplementedError, a body that is exactly the statement pass, or a
body with any other executable statements. -/
inductive MethodBody where
  | passBody
  | raiseNotImplemented
  | executable
  deriving DecidableEq

/-- One method of one class of the repository, with its body
classification. -/
structure PyMethod where
  module : String
  cls : String
  method : String
  body : MethodBody
  deriving DecidableEq

/-- Abbreviation for a table entry whose body is raise
NotImplementedError. -/
def mni (module cls method : String) : PyMethod :=
  { module := module, cls := cls, method := method, body := MethodBody.raiseNotImplemented }

/-- Abbreviation for a table entry whose body holds other executable
statements. -/
def mex (module cls method : String) : PyMethod :=
  { module := module, cls := cls, method := method, body := MethodBody.executable }

/-- Every method defined in every class of the repository's five Python
modules, with its body classification read off the source (setup.py
defines no classes; classes whose body is only pass define no
methods). -/
def repoMethods : List PyMethod :=
  [mni "src/ipynbsrv/contract/backends.py" "ContainerBackend" "container_exists",
   mni "src/ipynbsrv/contract/backends.py" "ContainerBackend" "container_image_exists",
   mni "src/ipynbsrv/contract/backends.py" "ContainerBackend" "container_is_running",
   mni "src/ipynbsrv/contract/backends.py" "ContainerBackend" "create_container",
   mni "src/ipynbsrv/contract/backends.py" "ContainerBackend" "create_container_image",
   mni "src/ipynbsrv/contract/backends.py" "ContainerBackend" "delete_container",
   mni "src/ipynbsrv/contract/backends.py" "ContainerBackend" "delete_container_image",
   mni "src/ipynbsrv/contract/backends.py" "ContainerBackend" "exec_in_container",
   mni "src/ipynbsrv/contract/backends.py" "ContainerBackend" "get_container",
   mni "src/ipynbsrv/contract/backends.py" "ContainerBackend" "get_container_image",
   mni "src/ipynbsrv/contract/backends.py" "ContainerBackend" "get_container_images",
   mni "src/ipynbsrv/contract/backends.py" "ContainerBackend" "get_container_logs",
   mni "src/ipynbsrv/contract/backends.py" "ContainerBackend" "get_containers",
   mni "src/ipynbsrv/contract/backends.py" "ContainerBackend" "get_status",
   mex "src/ipynbsrv/contract/backends.py" "ContainerBackend" "restart_container",
   mni "src/ipynbsrv/contract/backends.py" "ContainerBackend" "start_container",
   mni "src/ipynbsrv/contract/backends.py" "ContainerBackend" "stop_container",
   mni "src/ipynbsrv/contract/backends.py" "SnapshotableContainerBackend" "container_snapshot_exists",
   mni "src/ipynbsrv/contract/backends.py" "SnapshotableContainerBackend" "create_container_snapshot",
   mni "src/ipynbsrv/contract/backends.py" "SnapshotableContainerBackend" "delete_container_snapshot",
   mni "src/ipynbsrv/contract/backends.py" "SnapshotableContainerBackend" "get_container_snapshot",
   mni "src/ipynbsrv/contract/backends.py" "SnapshotableContainerBackend" "get_container_snapshots",
   mni "src/ipynbsrv/contract/backends.py" "SnapshotableContainerBackend" "get_containers_snapshots",
   mni "src/ipynbsrv/contract/backends.py" "SnapshotableContainerBackend" "restore_container_snapshot",
   mni "src/ipynbsrv/contract/backends.py" "SuspendableContainerBackend" "container_is_suspended",
   mni "src/ipynbsrv/contract/backends.py" "SuspendableContainerBackend" "resume_container",
   mni "src/ipynbsrv/contract/backends.py" "SuspendableContainerBackend" "suspend_container",
   mni "src/ipynbsrv/contract/backends.py" "GroupBackend" "add_group_member",
   mni "src/ipynbsrv/contract/backends.py" "GroupBackend" "connect",
   mni "src/ipynbsrv/contract/backends.py" "GroupBackend" "create_group",
   mni "src/ipynbsrv/contract/backends.py" "GroupBackend" "delete_group",
   mni "src/ipynbsrv/contract/backends.py" "GroupBackend" "disconnect",
   mni "src/ipynbsrv/contract/backends.py" "GroupBackend" "get_group",
   mni "src/ipynbsrv/contract/backends.py" "GroupBackend" "get_group_members",
   mni "src/ipynbsrv/contract/backends.py" "GroupBackend" "get_groups",
   mni "src/ipynbsrv/contract/backends.py" "GroupBackend" "group_exists",
   mni "src/ipynbsrv/contract/backends.py" "GroupBackend" "is_group_member",
   mni "src/ipynbsrv/contract/backends.py" "GroupBackend" "remove_group_member",
   mni "src/ipynbsrv/contract/backends.py" "GroupBackend" "remove_user_from_all_groups",
   mex "src/ipynbsrv/contract/backends.py" "StorageBackend" "__init__",
   mni "src/ipynbsrv/contract/backends.py" "StorageBackend" "dir_exists",
   mni "src/ipynbsrv/contract/backends.py" "StorageBackend" "get_dir_gid",
   mni "src/ipynbsrv/contract/backends.py" "StorageBackend" "get_dir_group",
   mni "src/ipynbsrv/contract/backends.py" "StorageBackend" "get_dir_mode",
   mni "src/ipynbsrv/contract/backends.py" "StorageBackend" "get_dir_owner",
   mni "src/ipynbsrv/contract/backends.py" "StorageBackend" "get_dir_uid",
   mni "src/ipynbsrv/contract/backends.py" "StorageBackend" "get_full_dir_path",
   mni "src/ipynbsrv/contract/backends.py" "StorageBackend" "mk_dir",
   mni "src/ipynbsrv/contract/backends.py" "StorageBackend" "rm_dir",
   mni "src/ipynbsrv/contract/backends.py" "StorageBackend" "set_dir_gid",
   mni "src/ipynbsrv/contract/backends.py" "StorageBackend" "set_dir_group",
   mni "src/ipynbsrv/contract/backends.py" "StorageBackend" "set_dir_mode",
   mni "src/ipynbsrv/contract/backends.py" "StorageBackend" "set_dir_owner",
   mni "src/ipynbsrv/contract/backends.py" "StorageBackend" "set_dir_uid",
   mni "src/ipynbsrv/contract/backends.py" "UserBackend" "auth_user",
   mni "src/ipynbsrv/contract/backends.py" "UserBackend" "connect",
   mni "src/ipynbsrv/contract/backends.py" "UserBackend" "create_user",
   mni "src/ipynbsrv/contract/backends.py" "UserBackend" "delete_user",
   mni "src/ipynbsrv/contract/backends.py" "UserBackend" "disconnect",
   mni "src/ipynbsrv/contract/backends.py" "UserBackend" "get_user",
   mni "src/ipynbsrv/contract/backends.py" "UserBackend" "get_users",
   mni "src/ipynbsrv/contract/backends.py" "UserBackend" "set_user_password",
   mni "src/ipynbsrv/contract/backends.py" "UserBackend" "user_exists",
   mni "src/ipynbsrv/contract/dtos.py" "DTO" "is_valid",
   mni "src/ipynbsrv/contract/dtos.py" "DTO" "validate",
   mex "src/ipynbsrv/contract/dtos.py" "ValidationError" "__init__",
   mex "src/ipynbsrv/contract/dtos.py" "ContainerImageDTO" "__init__",
   mex "src/ipynbsrv/contract/dtos.py" "ContainerImageDTO" "get_full_identifier",
   mex "src/ipynbsrv/contract/dtos.py" "ContainerImageDTO" "is_valid",
   mex "src/ipynbsrv/contract/dtos.py" "ContainerImageDTO" "validate",
   mex "src/ipynbsrv/contract/dtos.py" "ContainerDTO" "__init__",
   mex "src/ipynbsrv/contract/dtos.py" "ContainerDTO" "is_valid",
   mex "src/ipynbsrv/contract/dtos.py" "ContainerDTO" "validate",
   mex "src/ipynbsrv/contract/dtos.py" "CreatableContainerDTO" "__init__",
   mex "src/ipynbsrv/contract/dtos.py" "CreatableContainerDTO" "is_valid",
   mex "src/ipynbsrv/contract/dtos.py" "CreatableContainerDTO" "validate",
   mex "src/ipynbsrv/contract/errors.py" "GroupBackendError" "__init__",
   mex "src/ipynbsrv/contract/errors.py" "GroupBackendError" "__str__",
   mex "src/ipynbsrv/contract/errors.py" "GroupNotFoundError" "__init__",
   mex "src/ipynbsrv/contract/errors.py" "GroupNotFoundError" "__str__",
   mex "src/ipynbsrv/contract/errors.py" "UserBackendError" "__init__",
   mex "src/ipynbsrv/contract/errors.py" "UserBackendError" "__str__",
   mex "src/ipynbsrv/contract/errors.py" "UserNotFoundError" "__init__",
   mex "src/ipynbsrv/contract/errors.py" "UserNotFoundError" "__str__",
   mni "src/ipynbsrv/contract/services.py" "ContainerHostSelectionService" "get_server",
   mni "src/ipynbsrv/contract/services.py" "EncryptionService" "decrypt",
   mni "src/ipynbsrv/contract/services.py" "EncryptionService" "encrypt",
   mni "src/ipynbsrv/contract/services.py" "IntegrityService" "sign",
   mni "src/ipynbsrv/contract/services.py" "IntegrityService" "verify",
   mni "src/coco/contract/services.py" "EncryptionService" "decrypt",
   mni "src/coco/contract/services.py" "EncryptionService" "encrypt",
   mni "src/coco/contract/services.py" "IntegrityService" "sign",
   mni "src/coco/contract/services.py" "IntegrityService" "verify"]

/-- The methods of the repository whose bodies hold executable
statements beyond a bare raise NotImplementedError, as (class, method)
pairs: the DTO and error-class constructors and accessors of dtos.py
and errors.py, the default restart_container, and the StorageBackend
constructor. -/
def executableMethods : List (String × String) :=
  [("ContainerBackend", "restart_container"),
   ("StorageBackend", "__init__"),
   ("ValidationError", "__init__"),
   ("ContainerImageDTO", "__init__"),
   ("ContainerImageDTO", "get_full_identifier"),
   ("ContainerImageDTO", "is_valid"),
   ("ContainerImageDTO", "validate"),
   ("ContainerDTO", "__init__"),
   ("ContainerDTO", "is_valid"),
   ("ContainerDTO", "validate"),
   ("CreatableContainerDTO", "__init__"),
   ("CreatableContainerDTO", "is_valid"),
   ("CreatableContainerDTO", "validate"),
   ("GroupBackendError", "__init__"),
   ("GroupBackendError", "__str__"),
   ("GroupNotFoundError", "__init__"),
   ("GroupNotFoundError", "__str__"),
   ("UserBackendError", "__init__"),
   ("UserBackendError", "__str__"),
   ("UserNotFoundError", "__init__"),
   ("UserNotFoundError", "__str__")]

/-- The body of ContainerImageDTO.is_valid has no attribute assignment,
so the state-passing translation leaves the receiver unchanged. -/
lemma imageDTO_is_validS_fst (s : ContainerImageDTO) :
    (ContainerImageDTO.is_validS s).1 = s :=
  rfl

/-- The body of ContainerImageDTO.validate has no attribute assignment:
every branch of the translation returns the receiver unchanged. -/
lemma imageDTO_validateS_fst (s : ContainerImageDTO) :
    (ContainerImageDTO.validateS s).1 = s := by
  unfold ContainerImageDTO.validateS
  split
  · rfl
  · split <;> rfl

/-- The body of ContainerDTO.validate has no attribute assignment. -/
lemma containerDTO_validateS_fst (s : ContainerDTO) :
    (ContainerDTO.validateS s).1 = s := by
  unfold ContainerDTO.validateS
  split <;> rfl

/-- The nested is_valid call leaves its receiver value unchanged. -/
lemma image_is_validS_fst (v : PyVal) : (image_is_validS v).1 = v := by
  cases v <;> rfl

/-- The nested validate call leaves its receiver value unchanged. -/
lemma image_validateS_fst (v : PyVal) : (image_validateS v).1 = v := by
  cases v <;> simp [image_validateS, imageDTO_validateS_fst]

/-- The body of CreatableContainerDTO.is_valid has no attribute
assignment (the nested call on the image attribute also leaves it
unchanged). -/
lemma creatableDTO_is_validS_fst (d : CreatableContainerDTO) :
    (CreatableContainerDTO.is_validS d).1 = d := by
  show { d with image := (image_is_validS d.image).1 } = d
  rw [image_is_validS_fst]

/-- The body of CreatableContainerDTO.validate has no attribute
assignment (the nested call on the image attribute also leaves it
unchanged). -/
lemma creatableDTO_validateS_fst (d : CreatableContainerDTO) :
    (CreatableContainerDTO.validateS d).1 = d := by
  unfold CreatableContainerDTO.validateS
  split
  · rfl
  · split
    · rfl
    · split
      · show { d with image := (image_validateS d.image).1 } = d
        rw [image_validateS_fst]
      · split
        · show { d with image := (image_validateS d.image).1 } = d
          rw [image_validateS_fst]
        · show { d with image := (image_validateS d.image).1 } = d
          rw [image_validateS_fst]

/-- ContainerImageDTO.validate returns normally exactly when both
attributes are truthy. -/
lemma ContainerImageDTO.validate_ok_iff (s : ContainerImageDTO) :
    ContainerImageDTO.validate s = Except.ok () ↔
      (truthy s.name = true ∧ truthy s.tag = true) := by
  unfold ContainerImageDTO.validate ContainerImageDTO.validateS
  cases h1 : truthy s.name <;> cases h2 : truthy s.tag <;> simp [h1, h2]

/-- ContainerImageDTO.is_valid is the conjunction of the two
non-None checks. -/
lemma ContainerImageDTO.is_valid_iff (s : ContainerImageDTO) :
    ContainerImageDTO.is_valid s = true ↔
      (s.name ≠ PyVal.pynone ∧ s.tag ≠ PyVal.pynone) := by
  unfold ContainerImageDTO.is_valid ContainerImageDTO.is_validS
  simp

/-- A value that is either truthy or the Python None is non-None exactly
when it is truthy. -/
lemma ne_none_iff_truthy_of_not_degenerate (v : PyVal)
    (h : truthy v = true ∨ v = PyVal.pynone) :
    (v ≠ PyVal.pynone ↔ truthy v = true) := by
  rcases h with h | rfl
  · constructor
    · intro _
      exact h
    · intro _ heq
      rw [heq] at h
      simp [truthy] at h
  · simp [truthy]

/-- C1 counterexample: in this revision UserBackend.user_exists is an
abstract stub, so on the concrete user alice it raises
NotImplementedError instead of returning True (get_user does not raise
UserNotFoundError there, so the claim would demand True). -/
theorem claim_C1_counterexample :
    UserBackend.get_user (PyVal.pystr "alice") ≠
        Except.error (PyExc.userNotFoundError (PyVal.pystr "alice"))
  ∧ UserBackend.user_exists (PyVal.pystr "alice") = Except.error PyExc.notImplementedError
  ∧ UserBackend.user_exists (PyVal.pystr "alice") ≠ Except.ok true := by
  refine ⟨?_, rfl, ?_⟩ <;> decide

/-- C1 amended: for every user, UserBackend.user_exists of this revision
raises NotImplementedError; it is an abstract stub and is not
implemented in terms of get_user. -/
theorem claim_C1 (user : PyVal) :
    UserBackend.user_exists user = Except.error PyExc.notImplementedError :=
  rfl

/-- C2 counterexample: on the field assignment name = empty string,
tag = latest, is_valid returns True while validate raises
MissingFieldError, although the name field is present (not None); the
two checks disagree on empty strings. -/
theorem claim_C2_counterexample :
    ContainerImageDTO.is_valid { name := PyVal.pystr "", tag := PyVal.pystr "latest" } = true
  ∧ ContainerImageDTO.validate { name := PyVal.pystr "", tag := PyVal.pystr "latest" } =
      Except.error (PyExc.missingFieldError "Container image name not set")
  ∧ ({ name := PyVal.pystr "", tag := PyVal.pystr "latest" } : ContainerImageDTO).name ≠
      PyVal.pynone := by
  refine ⟨rfl, rfl, ?_⟩
  decide

/-- C2 amended: ContainerImageDTO.validate raises (a MissingFieldError)
iff name or tag is falsy under Python truthiness, while is_valid is True
iff both are non-None; the two checks agree on every field assignment in
which no field is a non-None falsy value such as the empty string. -/
theorem claim_C2 (d : ContainerImageDTO) :
    (ContainerImageDTO.validate d = Except.ok () ↔
      (truthy d.name = true ∧ truthy d.tag = true))
  ∧ (∀ e : PyExc, ContainerImageDTO.validate d = Except.error e →
      ∃ m : String, e = PyExc.missingFieldError m)
  ∧ (ContainerImageDTO.is_valid d = true ↔
      (d.name ≠ PyVal.pynone ∧ d.tag ≠ PyVal.pynone))
  ∧ ((truthy d.name = true ∨ d.name = PyVal.pynone) →
     (truthy d.tag = true ∨ d.tag = PyVal.pynone) →
      (ContainerImageDTO.is_valid d = true ↔
        ContainerImageDTO.validate d = Except.ok ())) := by
  refine ⟨ContainerImageDTO.validate_ok_iff d, ?_, ContainerImageDTO.is_valid_iff d, ?_⟩
  · intro e he
    unfold ContainerImageDTO.validate ContainerImageDTO.validateS at he
    cases h1 : truthy d.name <;> cases h2 : truthy d.tag <;>
      simp [h1, h2] at he <;> exact ⟨_, he.symm⟩
  · intro h1 h2
    rw [ContainerImageDTO.is_valid_iff d, ContainerImageDTO.validate_ok_iff d,
      ne_none_iff_truthy_of_not_degenerate d.name h1,
      ne_none_iff_truthy_of_not_degenerate d.tag h2]

/-- C2 witness: the amended agreement applied at a concrete valid image,
and the MissingFieldError shape applied at a concrete image with an
empty tag. -/
theorem claim_C2_witness :
    (ContainerImageDTO.is_valid { name := PyVal.pystr "ubuntu", tag := PyVal.pystr "latest" } =
        true ↔
      ContainerImageDTO.validate { name := PyVal.pystr "ubuntu", tag := PyVal.pystr "latest" } =
        Except.ok ())
  ∧ ∃ m : String,
      PyExc.missingFieldError "Container image tag name not set" = PyExc.missingFieldError m :=
  ⟨(claim_C2 { name := PyVal.pystr "ubuntu", tag := PyVal.pystr "latest" }).2.2.2
      (Or.inl (by decide)) (Or.inl (by decide)),
   (claim_C2 { name := PyVal.pystr "base", tag := PyVal.pystr "" }).2.1
      (PyExc.missingFieldError "Container image tag name not set") (by decide)⟩

/-- C3: StorageBackend construction raises DirectoryNotFoundError when
the probed base directory does not exist, and otherwise succeeds,
storing exactly the given path in the base_dir attribute. -/
theorem claim_C3 (os_path_exists : String → Bool) (base_dir : String) :
    (os_path_exists base_dir = false →
      StorageBackend.init os_path_exists base_dir =
        Except.error (PyExc.directoryNotFoundError "Base directory does not exist."))
  ∧ (os_path_exists base_dir = true →
      StorageBackend.init os_path_exists base_dir = Except.ok { base_dir := base_dir }) := by
  constructor <;> intro h <;> simp [StorageBackend.init, h]

/-- C3 witness: both branches of the constructor at the path srv, once
against a filesystem without it and once against a filesystem with
it. -/
theorem claim_C3_witness :
    StorageBackend.init (fun _ => false) "/srv" =
      Except.error (PyExc.directoryNotFoundError "Base directory does not exist.")
  ∧ StorageBackend.init (fun _ => true) "/srv" = Except.ok { base_dir := "/srv" } :=
  ⟨(claim_C3 (fun _ => false) "/srv").1 rfl, (claim_C3 (fun _ => true) "/srv").2 rfl⟩

/-- C4: when the stop call returns normally, the default
restart_container body performs exactly the two calls stop_container
then start_container on the given container, and its outcome is that of
the start call. -/
theorem claim_C4 (stop_container start_container : PyVal → Except PyExc Unit)
    (container : PyVal) (h : stop_container container = Except.ok ()) :
    ContainerBackend.restart_container stop_container start_container container =
      ([ContainerCall.stop container, ContainerCall.start container],
        start_container container) := by
  unfold ContainerBackend.restart_container
  rw [h]
  cases hs : start_container container with
  | error e => rfl
  | ok u =>
    cases u
    rfl

/-- C4 witness: the theorem applied to a backend whose stop and start
calls return normally, on a concrete container. -/
theorem claim_C4_witness :
    ContainerBackend.restart_container (fun _ => Except.ok ()) (fun _ => Except.ok ())
        (PyVal.pystr "c1") =
      ([ContainerCall.stop (PyVal.pystr "c1"), ContainerCall.start (PyVal.pystr "c1")],
        Except.ok ()) :=
  claim_C4 (fun _ => Except.ok ()) (fun _ => Except.ok ()) (PyVal.pystr "c1") rfl

/-- C5 counterexample: ValidationError is an exception class defined in
the repository (in dtos.py) yet it is a subclass of neither BackendError
nor any declared ServiceError root. -/
theorem claim_C5_counterexample :
    PyClass.ValidationError ∈ repoErrorClasses
  ∧ issubclass PyClass.ValidationError PyClass.BackendError = false
  ∧ subclassOfServiceError PyClass.ValidationError = false := by
  decide

/-- C5 amended: every exception class defined in the repository except
ValidationError and MissingFieldError of dtos.py is a subclass of
BackendError or of a declared ServiceError root; those two descend from
the builtin Exception directly (MissingFieldError through
ValidationError). -/
theorem claim_C5 :
    ((repoErrorClasses.filter fun c =>
        decide (c ≠ PyClass.ValidationError ∧ c ≠ PyClass.MissingFieldError)).all
      fun c => issubclass c PyClass.BackendError || subclassOfServiceError c) = true
  ∧ issubclass PyClass.ValidationError PyClass.PyException = true
  ∧ issubclass PyClass.MissingFieldError PyClass.ValidationError = true := by
  decide

/-- C6: every instance of ContainerNotFoundError, whatever its
constructor arguments, is an instance of both NotFoundError and
ContainerBackendError. -/
theorem claim_C6 (args : List PyVal) :
    isinstance { cls := PyClass.ContainerNotFoundError, args := args } PyClass.NotFoundError =
        true
  ∧ isinstance { cls := PyClass.ContainerNotFoundError, args := args }
        PyClass.ContainerBackendError = true :=
  ⟨rfl, rfl⟩

/-- C7 counterexample: ContainerImageDTO.is_valid is a method of the
repository whose body is neither pass nor raise NotImplementedError; on
a concrete instance it returns the value True. -/
theorem claim_C7_counterexample :
    mex "src/ipynbsrv/contract/dtos.py" "ContainerImageDTO" "is_valid" ∈ repoMethods
  ∧ (repoMethods.all fun m =>
      decide (m.body = MethodBody.passBody) ||
        decide (m.body = MethodBody.raiseNotImplemented)) = false
  ∧ ContainerImageDTO.is_valid { name := PyVal.pystr "ubuntu", tag := PyVal.pystr "latest" } =
      true := by
  refine ⟨by decide, by decide, rfl⟩

/-- C7 amended: every method of every class in the repository either
raises NotImplementedError or is one of the twenty-one listed methods
with executable bodies (the DTO and error-class constructors and
accessors, the default restart_container, and the StorageBackend
constructor); no method body is a bare pass. -/
theorem claim_C7 :
    ((repoMethods.filter fun m => decide (m.body = MethodBody.executable)).map
        fun m => (m.cls, m.method)) = executableMethods
  ∧ (repoMethods.all fun m =>
      decide (m.body = MethodBody.raiseNotImplemented) ||
        decide (m.body = MethodBody.executable)) = true := by
  decide

/-- C8: CreatableContainerDTO.is_valid returns True exactly when the
command field is present, the image field is a ContainerImageDTO whose
own is_valid returns True, and the name field is present. -/
theorem claim_C8 (d : CreatableContainerDTO) :
    CreatableContainerDTO.is_valid d = true ↔
      (d.command ≠ PyVal.pynone
        ∧ (∃ n t : PyVal, d.image = PyVal.pyimage n t
            ∧ ContainerImageDTO.is_valid { name := n, tag := t } = true)
        ∧ d.name ≠ PyVal.pynone) := by
  unfold CreatableContainerDTO.is_valid CreatableContainerDTO.is_validS
  cases h : d.image with
  | pyimage n t =>
    simp [h, isinstance_ContainerImageDTO, image_is_validS,
      ContainerImageDTO.is_valid, ContainerImageDTO.is_validS, and_assoc]
  | pynone => simp [h, isinstance_ContainerImageDTO]
  | pybool b => simp [h, isinstance_ContainerImageDTO]
  | pyint n => simp [h, isinstance_ContainerImageDTO]
  | pystr s => simp [h, isinstance_ContainerImageDTO]

/-- C9: for each of the three DTO classes, is_valid and validate leave
every field of the receiver unchanged, and running is_valid twice in a
row returns the same result both times. -/
theorem claim_C9 (i : ContainerImageDTO) (c : ContainerDTO) (d : CreatableContainerDTO) :
    (ContainerImageDTO.is_validS i).1 = i
  ∧ (ContainerImageDTO.validateS i).1 = i
  ∧ (ContainerDTO.is_validS c).1 = c
  ∧ (ContainerDTO.validateS c).1 = c
  ∧ (CreatableContainerDTO.is_validS d).1 = d
  ∧ (CreatableContainerDTO.validateS d).1 = d
  ∧ (ContainerImageDTO.is_validS (ContainerImageDTO.is_validS i).1).2 =
      (ContainerImageDTO.is_validS i).2
  ∧ (ContainerDTO.is_validS (ContainerDTO.is_validS c).1).2 = (ContainerDTO.is_validS c).2
  ∧ (CreatableContainerDTO.is_validS (CreatableContainerDTO.is_validS d).1).2 =
      (CreatableContainerDTO.is_validS d).2 := by
  refine ⟨rfl, imageDTO_validateS_fst i, rfl, containerDTO_validateS_fst c,
    creatableDTO_is_validS_fst d, creatableDTO_validateS_fst d,
    rfl, rfl, ?_⟩
  rw [creatableDTO_is_validS_fst d]

/-- C10: there is a CreatableContainerDTO whose command field is absent
for which validate raises no error while is_valid returns False, so the
two checks disagree for this class (validate never looks at the command
field). -/
theorem claim_C10 :
    ∃ d : CreatableContainerDTO, d.command = PyVal.pynone
      ∧ CreatableContainerDTO.validate d = Except.ok ()
      ∧ CreatableContainerDTO.is_valid d = false := by
  refine ⟨{ command := PyVal.pynone, env := PyVal.pynone,
            image := PyVal.pyimage (PyVal.pystr "ubuntu") (PyVal.pystr "latest"),
            name := PyVal.pystr "c1", ports := PyVal.pynone, volumes := PyVal.pynone },
    rfl, ?_, ?_⟩ <;> decide
